import Mathlib

/-!
Verification of the daily GitHub-to-Google-Sheets ETL pipeline
(`daily_ai_startups.py` together with `sheets_writer.py`).

The Python program is embedded shallowly:

* module-level constants become Lean constants;
* the HTTP world is passed in explicitly: each repository search query
  yields a `SearchOutcome`, and each repository record carries the outcome
  of its single contributor-count request;
* Python exceptions are modelled with `Except`: the `try/except
  requests.HTTPError` around `github_search` maps to the `httpError`
  outcome (skipped), while a transport-level `requests` exception that is
  not an `HTTPError` (connection error, timeout) is uncaught in the source
  and therefore surfaces as `Except.error`;
* the `pandas` step `pd.DataFrame(seen.values()).sort_values("score",
  ascending=False).head(RESULT_TARGET)` is modelled on association lists:
  when `seen` is empty the constructed frame has no columns at all, so
  `sort_values("score")` raises `KeyError` — this is modelled faithfully
  as an `Except.error`.
-/

/-- `MAX_STARS = 200` from the configuration block. -/
def MAX_STARS : Int := 200

/-- `MAX_FORKS = 50` from the configuration block. -/
def MAX_FORKS : Int := 50

/-- `MAX_CONTRIB = 20` from the configuration block. -/
def MAX_CONTRIB : Nat := 20

/-- `RESULT_TARGET = 30` from the configuration block. -/
def RESULT_TARGET : Nat := 30

/-- `SEARCH_PER_PAGE = 100` from the configuration block. -/
def SEARCH_PER_PAGE : Nat := 100

/-- The `TOPICS` list from the configuration block. -/
def TOPICS : List String :=
  ["ai", "machine-learning", "deep-learning", "generative-ai"]

/-- The `KEYWORDS` list from the configuration block (the Python literals
contain embedded double quotes). -/
def KEYWORDS : List String :=
  ["\"pre-seed\"", "\"seed round\"", "MVP", "\"early stage\"", "\"YC W\""]

/-- The HTTP response consumed by `contributors_count`: its status code,
its raw `Link` header (the empty string models an absent header, exactly
what `resp.headers.get("Link", "")` produces), and the length of the JSON
array body (`len(resp.json())`). -/
structure ContribResponse where
  status : Nat
  linkHeader : String
  bodyLen : Nat
deriving DecidableEq

/-- Match a literal character sequence at the front of the input,
returning the remainder on success. -/
def matchLit : List Char → List Char → Option (List Char)
  | [], rest => some rest
  | _ :: _, [] => none
  | p :: ps, c :: cs => if c = p then matchLit ps cs else none

/-- Decimal value of a digit string, as `int(...)` computes it. -/
def digitsVal (ds : List Char) : Nat :=
  ds.foldl (fun n c => n * 10 + (c.toNat - 48)) 0

/-- Attempt to match the regular expression
`[&?]page=(\d+)>; rel="last"` (`LINK_LAST_RE`) anchored at the current
position, returning the captured page number. `\d+` is greedy and the
character after the digits must be `>`, which is not a digit, so maximal
munch is exact. -/
def linkMatchAt (s : List Char) : Option Nat :=
  match s with
  | [] => none
  | c :: cs =>
    if c = '&' ∨ c = '?' then
      match matchLit (("page=").data) cs with
      | none => none
      | some r1 =>
        let ds := r1.takeWhile Char.isDigit
        let r2 := r1.dropWhile Char.isDigit
        if ds.isEmpty then none
        else
          match matchLit ((">; rel=\"last\"").data) r2 with
          | none => none
          | some _ => some (digitsVal ds)
    else none

/-- `LINK_LAST_RE.search`: scan left to right for the first position where
`linkMatchAt` succeeds. -/
def linkSearch : List Char → Option Nat
  | [] => none
  | c :: cs =>
    match linkMatchAt (c :: cs) with
    | some n => some n
    | none => linkSearch cs

/-- `contributors_count`, lines 84–99, given the HTTP response to its
single request (`per_page=1`, `anon=true`): a non-200 status yields `0`;
otherwise the last-page number from the `Link` header when the regular
expression matches, else the length of the JSON body. -/
def contributors_count (resp : ContribResponse) : Nat :=
  if resp.status ≠ 200 then 0
  else
    match linkSearch resp.linkHeader.data with
    | some n => n
    | none => resp.bodyLen

/-- The same function seen from the level of the `requests.get` call:
the call either raises a transport-level exception (`Except.error`) or
delivers a response. The body of `contributors_count` catches no
exception, so an `error` outcome propagates out of the function instead
of being converted to a count. -/
def contributors_count_call (call : Except Unit ContribResponse) : Except Unit Nat :=
  match call with
  | Except.error e => Except.error e
  | Except.ok resp => Except.ok (contributors_count resp)

/-- `contributors_count` issues exactly one request, for the first page.
`fetch` maps a page number to the response the server would give for it;
the function only ever consults page 1. -/
def contributors_count_run (fetch : Nat → ContribResponse) : Nat :=
  contributors_count (fetch 1)

/-- The fields of one search-result item that the pipeline reads.
`age_days` is `(dt.datetime.utcnow() - created_dt).days`, the whole-day
difference between the run's current time and the parsed `created_at`
timestamp; the date arithmetic is supplied by the environment.
`contrib_resp` is the response the contributors endpoint of this
repository returns for the single request `contributors_count` makes. -/
structure Repo where
  full_name : String
  html_url : String
  created_at : String
  stargazers_count : Int
  has_sponsors : Bool
  description : Option String
  age_days : Int
  contrib_resp : ContribResponse
deriving DecidableEq

/-- `calc_score`, lines 102–110: base score from star deficit and
youth, a flat +50 when `has_sponsors` is set, floored at zero by
`max(score, 0)`. -/
def calc_score (repo : Repo) (age_days : Int) : Int :=
  let score := (MAX_STARS - repo.stargazers_count) + (365 - age_days)
  let score := if repo.has_sponsors then score + 50 else score
  max score 0

/-- One row of the collected table, with the keys used at lines 148–155. -/
structure Record where
  name : String
  url : String
  created : String
  stars : Int
  score : Int
  description : String
deriving DecidableEq

/-- Python `repo["description"] or ""`: both `None` and the empty string
are falsy, so either maps to `""`. -/
def py_or_empty (d : Option String) : String :=
  match d with
  | none => ""
  | some s => if s = "" then "" else s

/-- The dictionary stored into `seen[full_name]` at lines 148–155;
`created` is `repo["created_at"][:10]`. -/
def mkRecord (repo : Repo) : Record :=
  { name := repo.full_name
  , url := repo.html_url
  , created := repo.created_at.take 10
  , stars := repo.stargazers_count
  , score := calc_score repo repo.age_days
  , description := py_or_empty repo.description }

/-- The collector's state: the insertion-ordered `seen` dictionary as an
association list (Python dictionaries preserve insertion order), plus the
trace of contributor-count requests issued, one entry per call to
`contributors_count`, recording which repository was enriched. -/
structure CState where
  seen : List (String × Record)
  calls : List String
deriving DecidableEq

/-- Python `full_name in seen`: key membership in the dictionary. -/
def containsKey (l : List (String × Record)) (k : String) : Bool :=
  l.any (fun p => decide (p.1 = k))

/-- The body of the inner `for repo in items` loop, lines 130–158:
skip when the identifier was already seen; skip when older than 365
days; otherwise issue the contributor-count request (recorded in
`calls`), skip when the count reaches `MAX_CONTRIB`, and otherwise
insert the record at the end of the dictionary. -/
def processRepo (st : CState) (repo : Repo) : CState :=
  if containsKey st.seen repo.full_name then st
  else if repo.age_days > 365 then st
  else
    let contribs := contributors_count repo.contrib_resp
    let st1 : CState := { st with calls := st.calls ++ [repo.full_name] }
    if MAX_CONTRIB ≤ contribs then st1
    else { st1 with seen := st1.seen ++ [(repo.full_name, mkRecord repo)] }

/-- The outcome of one `github_search(topic, kw)` call. `ok` is a 200
response with its item list; `httpError` is a `requests.HTTPError`
raised by `resp.raise_for_status()` (any 4xx/5xx, including
rate-limiting), which the loop at lines 124–128 catches; `transportError`
is any other `requests` exception (connection failure, timeout), which is
not an `HTTPError` and is caught nowhere in the source. -/
inductive SearchOutcome where
  | ok (items : List Repo)
  | httpError
  | transportError
deriving DecidableEq

/-- The HTTP world of one run: the outcome of each search query,
keyed by topic and keyword. -/
def SearchEnv : Type := String → String → SearchOutcome

/-- One iteration of the `for kw in KEYWORDS` loop body, lines 124–158:
a successful search folds the item loop over the state, a caught
`HTTPError` leaves the state unchanged (`continue`), and an uncaught
transport exception aborts the run. -/
def processQuery (env : SearchEnv) (st : CState) (q : String × String) : Except String CState :=
  match env q.1 q.2 with
  | SearchOutcome.ok items => Except.ok (items.foldl processRepo st)
  | SearchOutcome.httpError => Except.ok st
  | SearchOutcome.transportError => Except.error ("RequestException")

/-- The `topic × keyword` pairs in the order the two nested loops at
lines 122–123 visit them. -/
def queryList : List (String × String) :=
  TOPICS.flatMap (fun t => KEYWORDS.map (fun k => (t, k)))

/-- The double loop of `collect_candidates`, lines 120–158, starting
from the empty dictionary. -/
def collect_seen (env : SearchEnv) : Except String CState :=
  queryList.foldlM (processQuery env) ⟨[], []⟩

/-- `sort_values("score", ascending=False)` on the collected rows:
sort descending by score. -/
def sortByScoreDesc (l : List Record) : List Record :=
  List.insertionSort (fun a b => b.score ≤ a.score) l

/-- `collect_candidates`, lines 115–161. When `seen` is empty,
`pd.DataFrame(seen.values())` builds a frame with no columns at all, and
`sort_values("score")` then raises `KeyError: 'score'`; otherwise the
frame is sorted descending by score and truncated by
`head(RESULT_TARGET)`. -/
def collect_candidates (env : SearchEnv) : Except String (List Record) :=
  match collect_seen env with
  | Except.error e => Except.error e
  | Except.ok st =>
    if st.seen.isEmpty then Except.error ("KeyError: score")
    else Except.ok ((sortByScoreDesc (st.seen.map Prod.snd)).take RESULT_TARGET)

/-- The header row `sheets_writer.write_dataframe_to_sheet` derives from
the frame's column names. -/
def header_row : List String :=
  ["name", "url", "created", "stars", "score", "description"]

/-- One data row after `df.astype(str)`: every value serialised as
text. -/
def record_row (r : Record) : List String :=
  [r.name, r.url, r.created, toString r.stars, toString r.score, r.description]

/-- The `values` block handed to the spreadsheet update call:
header first, then one row per record. -/
def write_values (df : List Record) : List (List String) :=
  header_row :: df.map record_row

/-- The observable outcome of one `main()` invocation: whether the
empty-result warning was printed, the table handed to the sheet writer
(`none` when the run died before the write), and the process exit code. -/
structure RunResult where
  warned : Bool
  written : Option (List (List String))
  exitCode : Nat
deriving DecidableEq

/-- `main`, lines 164–174, assuming the sheet write itself succeeds: an
exception escaping `collect_candidates` is unhandled, so the process
exits with status 1 having written nothing; otherwise the (possibly
empty) frame is written and the process exits 0. -/
def main_run (env : SearchEnv) : RunResult :=
  match collect_candidates env with
  | Except.error _ => { warned := false, written := none, exitCode := 1 }
  | Except.ok df =>
    { warned := df.isEmpty, written := some (write_values df), exitCode := 0 }

/-- A concrete accepted candidate used by the witnesses: young, five
stars, one contributor, no description. -/
def repoA : Repo :=
  { full_name := "org/repo"
  , html_url := "https://example.test/org/repo"
  , created_at := "2025-06-01T00:00:00Z"
  , stargazers_count := 5
  , has_sponsors := false
  , description := none
  , age_days := 10
  , contrib_resp := { status := 200, linkHeader := "", bodyLen := 1 } }

/-- A candidate whose single contributor-count request comes back with a
403 status (rate-limited). -/
def repoErr : Repo :=
  { repoA with
    full_name := "org/err"
  , contrib_resp := { status := 403, linkHeader := "", bodyLen := 0 } }

/-- A candidate that is 400 days old and therefore fails the age
filter. -/
def repoOld : Repo :=
  { repoA with full_name := "org/old", age_days := 400 }

/-- A 200 response whose `Link` header points at last page 15, as in the
spec's end-to-end scenario 3. The `rel="next"` entry does not match
`LINK_LAST_RE`; the `rel="last"` entry yields 15. -/
def respL : ContribResponse :=
  { status := 200
  , linkHeader := "<https://api.github.example/repositories/1/contributors?per_page=1&anon=true&page=2>; rel=\"next\", <https://api.github.example/repositories/1/contributors?per_page=1&anon=true&page=15>; rel=\"last\""
  , bodyLen := 1 }

/-- A failing response, used to distinguish pages the lookup never
requests. -/
def respBad : ContribResponse :=
  { status := 500, linkHeader := "", bodyLen := 7 }

/-- An HTTP world where the very first query of the run dies with a
transport-level exception while every other query would return
`repoA`. -/
def envT : SearchEnv :=
  fun t k =>
    if t = "ai" ∧ k = "\"pre-seed\"" then SearchOutcome.transportError
    else SearchOutcome.ok [repoA]

/-- The collector invariant: the keys of `seen` are pairwise distinct,
every stored record's `name` equals its key, and every stored record was
built by `mkRecord`. -/
def SeenInv (l : List (String × Record)) : Prop :=
  (l.map Prod.fst).Nodup ∧
  (∀ p ∈ l, (Prod.snd p).name = p.1) ∧
  (∀ p ∈ l, ∃ repo : Repo, Prod.snd p = mkRecord repo)

/-- A predicate preserved by each step of a `foldl` holds of the
result. -/
theorem foldl_preserve {σ α : Type} (P : σ → Prop) (f : σ → α → σ)
    (hf : ∀ s a, P s → P (f s a)) :
    ∀ (l : List α) (s : σ), P s → P (l.foldl f s) := by
  intro l
  induction l with
  | nil => intro s hs; simpa using hs
  | cons a t ih =>
    intro s hs
    rw [List.foldl_cons]
    exact ih (f s a) (hf s a hs)

/-- A predicate preserved by each successful step of an `Except`-valued
`foldlM` holds of a successful result. -/
theorem foldlM_except_preserve {σ α : Type} (P : σ → Prop) (f : σ → α → Except String σ)
    (hf : ∀ s a s', f s a = Except.ok s' → P s → P s') :
    ∀ (l : List α) (s s' : σ), l.foldlM f s = Except.ok s' → P s → P s' := by
  intro l
  induction l with
  | nil =>
    intro s s' h hs
    simp only [List.foldlM_nil] at h
    cases h
    exact hs
  | cons a t ih =>
    intro s s' h hs
    rw [List.foldlM_cons] at h
    cases hfa : f s a with
    | error e =>
      rw [hfa] at h
      exact Except.noConfusion h
    | ok s1 =>
      rw [hfa] at h
      exact ih s1 s' h (hf s a s1 hfa hs)

/-- Two `Except`-valued folds with pointwise-equal step functions
agree. -/
theorem foldlM_except_congr {σ α : Type} (f g : σ → α → Except String σ)
    (h : ∀ s a, f s a = g s a) :
    ∀ (l : List α) (s : σ), l.foldlM f s = l.foldlM g s := by
  intro l
  induction l with
  | nil => intro s; rfl
  | cons a t ih =>
    intro s
    rw [List.foldlM_cons, List.foldlM_cons, h s a]
    cases g s a with
    | error e => rfl
    | ok s1 => exact ih s1

/-- `containsKey` answers key membership of the association list. -/
theorem containsKey_iff (l : List (String × Record)) (k : String) :
    containsKey l k = true ↔ k ∈ l.map Prod.fst := by
  simp [containsKey, List.any_eq_true, List.mem_map]

/-- Appending a fresh key preserves the collector invariant. -/
theorem seenInv_append (l : List (String × Record)) (repo : Repo)
    (h : SeenInv l) (hnot : repo.full_name ∉ l.map Prod.fst) :
    SeenInv (l ++ [(repo.full_name, mkRecord repo)]) := by
  obtain ⟨h1, h2, h3⟩ := h
  refine ⟨?_, ?_, ?_⟩
  · rw [List.map_append]
    refine List.Nodup.append h1 (by simp) ?_
    intro x hx hxm
    simp only [List.map_cons, List.map_nil, List.mem_singleton] at hxm
    subst hxm
    exact hnot hx
  · intro p hp
    rcases List.mem_append.mp hp with hp | hp
    · exact h2 p hp
    · rw [List.mem_singleton] at hp
      subst hp
      rfl
  · intro p hp
    rcases List.mem_append.mp hp with hp | hp
    · exact h3 p hp
    · rw [List.mem_singleton] at hp
      subst hp
      exact ⟨repo, rfl⟩

/-- One inner-loop iteration preserves the collector invariant. -/
theorem processRepo_seenInv (st : CState) (repo : Repo) (h : SeenInv st.seen) :
    SeenInv (processRepo st repo).seen := by
  unfold processRepo
  by_cases h1 : containsKey st.seen repo.full_name = true
  · simp only [h1, if_true]
    exact h
  · have h1f : containsKey st.seen repo.full_name = false := by
      simpa using h1
    simp only [h1f, Bool.false_eq_true, if_false]
    by_cases h2 : repo.age_days > 365
    · simp only [h2, if_true]
      exact h
    · simp only [h2, if_false]
      by_cases h3 : MAX_CONTRIB ≤ contributors_count repo.contrib_resp
      · simp only [h3, if_true]
        exact h
      · simp only [h3, if_false]
        refine seenInv_append st.seen repo h ?_
        intro hm
        exact h1 ((containsKey_iff st.seen repo.full_name).mpr hm)

/-- One keyword-loop iteration preserves the collector invariant. -/
theorem processQuery_seenInv (env : SearchEnv) (s : CState) (q : String × String) (s' : CState)
    (h : processQuery env s q = Except.ok s') (hs : SeenInv s.seen) : SeenInv s'.seen := by
  unfold processQuery at h
  cases he : env q.1 q.2 <;> rw [he] at h
  case ok items =>
    injection h with h
    subst h
    exact foldl_preserve (fun s => SeenInv s.seen) processRepo
      (fun s a hp => processRepo_seenInv s a hp) items s hs
  case httpError =>
    injection h with h
    subst h
    exact hs
  case transportError => exact Except.noConfusion h

/-- The collector invariant holds of every state `collect_seen`
successfully produces. -/
theorem collect_seen_inv (env : SearchEnv) (st : CState)
    (h : collect_seen env = Except.ok st) : SeenInv st.seen := by
  refine foldlM_except_preserve (fun s => SeenInv s.seen) (processQuery env)
    (fun s a s' hf hp => processQuery_seenInv env s a s' hf hp) queryList ⟨[], []⟩ st h ?_
  exact ⟨List.nodup_nil, by simp, by simp⟩

/-- Destructuring a successful `collect_candidates` run. -/
theorem collect_candidates_ok (env : SearchEnv) (l : List Record)
    (h : collect_candidates env = Except.ok l) :
    ∃ st : CState, collect_seen env = Except.ok st ∧ st.seen.isEmpty = false ∧
      l = (sortByScoreDesc (st.seen.map Prod.snd)).take RESULT_TARGET := by
  unfold collect_candidates at h
  cases hcs : collect_seen env <;> rw [hcs] at h
  case error e => exact Except.noConfusion h
  case ok st =>
    have h' : (if st.seen.isEmpty = true then (Except.error ("KeyError: score") : Except String (List Record))
        else Except.ok ((sortByScoreDesc (st.seen.map Prod.snd)).take RESULT_TARGET)) = Except.ok l := h
    by_cases he : st.seen.isEmpty = true
    · rw [if_pos he] at h'
      exact Except.noConfusion h'
    · rw [if_neg he] at h'
      injection h' with h'
      exact ⟨st, rfl, by simpa using he, h'.symm⟩

/-- Every record of a successful run's result list was built by
`mkRecord`. -/
theorem result_records_from_mkRecord (env : SearchEnv) (l : List Record) (r : Record)
    (h : collect_candidates env = Except.ok l) (hr : r ∈ l) :
    ∃ repo : Repo, r = mkRecord repo := by
  obtain ⟨st, hcs, hne, hl⟩ := collect_candidates_ok env l h
  have inv := collect_seen_inv env st hcs
  subst hl
  have hr1 : r ∈ sortByScoreDesc (st.seen.map Prod.snd) := (List.take_sublist _ _).subset hr
  have hr2 : r ∈ st.seen.map Prod.snd := (List.perm_insertionSort _ _).subset hr1
  rcases List.mem_map.mp hr2 with ⟨p, hp, hpe⟩
  rcases inv.2.2 p hp with ⟨repo, hrepo⟩
  exact ⟨repo, by rw [← hpe, hrepo]⟩

/-- C1: across any run, the final result list holds at most one entry
per identifier, and once an identifier is in the collector dictionary a
later occurrence leaves the state — entries and call trace — completely
unchanged (no enrichment, no filtering, no replacement). -/
theorem C1_dedup_first_seen :
    (∀ (env : SearchEnv) (l : List Record), collect_candidates env = Except.ok l →
      (l.map Record.name).Nodup) ∧
    (∀ (st : CState) (repo : Repo), containsKey st.seen repo.full_name = true →
      processRepo st repo = st) := by
  constructor
  · intro env l h
    obtain ⟨st, hcs, hne, hl⟩ := collect_candidates_ok env l h
    have inv := collect_seen_inv env st hcs
    subst hl
    have hnames : (st.seen.map Prod.snd).map Record.name = st.seen.map Prod.fst := by
      rw [List.map_map]
      exact List.map_congr_left (fun p hp => inv.2.1 p hp)
    have h1 : ((st.seen.map Prod.snd).map Record.name).Nodup := by
      rw [hnames]
      exact inv.1
    have h2 : ((sortByScoreDesc (st.seen.map Prod.snd)).map Record.name).Nodup :=
      (((List.perm_insertionSort _ _).map Record.name).nodup_iff).mpr h1
    exact List.Nodup.sublist ((List.take_sublist _ _).map Record.name) h2
  · intro st repo h
    unfold processRepo
    simp only [h, if_true]

/-- Witness for C1 at a run where all twenty queries return the same
candidate, and at a state that already contains the identifier. -/
theorem C1_witness :
    (([mkRecord repoA]).map Record.name).Nodup ∧
    processRepo ⟨[(("org/repo"), mkRecord repoA)], [("org/repo")]⟩ repoA =
      ⟨[(("org/repo"), mkRecord repoA)], [("org/repo")]⟩ :=
  ⟨C1_dedup_first_seen.1 (fun _ _ => SearchOutcome.ok [repoA]) [mkRecord repoA] rfl,
   C1_dedup_first_seen.2 ⟨[(("org/repo"), mkRecord repoA)], [("org/repo")]⟩ repoA (by decide)⟩

/-- C2 (counterexample): a run in which zero candidates pass the filters
does not return an empty result set — the missing `score` column makes
`sort_values` raise, so the claim's "no error" fails at the concrete
input where every query succeeds with zero items. -/
theorem C2_counterexample :
    collect_candidates (fun _ _ => SearchOutcome.ok []) =
      Except.error ("KeyError: score") := rfl

/-- C2 (amended): on every run that accepts at least one candidate, the
result list has length `min accepted RESULT_TARGET`, hence at most
`RESULT_TARGET`, with no padding. -/
theorem C2_result_length_law :
    ∀ (env : SearchEnv) (st : CState) (l : List Record),
      collect_seen env = Except.ok st → collect_candidates env = Except.ok l →
      l.length = min st.seen.length RESULT_TARGET ∧ l.length ≤ RESULT_TARGET := by
  intro env st l hcs h
  obtain ⟨st', hcs', hne, hl⟩ := collect_candidates_ok env l h
  rw [hcs] at hcs'
  injection hcs' with he
  subst he
  subst hl
  have hlen : (sortByScoreDesc (st.seen.map Prod.snd)).length = st.seen.length := by
    unfold sortByScoreDesc
    rw [List.length_insertionSort, List.length_map]
  constructor
  · rw [List.length_take, hlen, Nat.min_comm]
  · exact List.length_take_le _ _

/-- Witness for C2 at a run that accepts exactly one candidate. -/
theorem C2_witness :
    ([mkRecord repoA]).length =
      min (CState.mk [(("org/repo"), mkRecord repoA)] [("org/repo")]).seen.length RESULT_TARGET ∧
    ([mkRecord repoA]).length ≤ RESULT_TARGET :=
  C2_result_length_law (fun _ _ => SearchOutcome.ok [repoA])
    (CState.mk [(("org/repo"), mkRecord repoA)] [("org/repo")]) [mkRecord repoA] rfl rfl

/-- C3: the computed score equals
`max 0 ((MAX_STARS − stars) + (365 − ageDays) + (50 if sponsored else 0))`
and is non-negative for every input, including star counts above
`MAX_STARS` and ages above 365 days. -/
theorem C3_score_floored_formula :
    ∀ (repo : Repo) (age_days : Int),
      calc_score repo age_days =
        max 0 ((MAX_STARS - repo.stargazers_count) + (365 - age_days) +
          (if repo.has_sponsors then (50 : Int) else 0)) ∧
      0 ≤ calc_score repo age_days := by
  intro repo a
  constructor
  · unfold calc_score
    cases h : repo.has_sponsors
    · simp [h, max_comm]
    · simp [h, max_comm]
  · unfold calc_score
    exact le_max_right _ _

/-- C4: with every query succeeding but no candidate passing the
filters, the run does not warn-and-write an empty table with exit 0;
instead `sort_values` raises `KeyError` on the column-less empty frame,
nothing reaches the sheet writer, and the process dies with a non-zero
status. -/
theorem C4_empty_result_crashes_before_write :
    main_run (fun _ _ => SearchOutcome.ok []) =
      { warned := false, written := none, exitCode := 1 } ∧
    collect_candidates (fun _ _ => SearchOutcome.ok []) =
      Except.error ("KeyError: score") :=
  ⟨rfl, rfl⟩

/-- C5 (counterexample): a transport-level failure of the
contributor-count sub-call does not yield the default 0 — it propagates
as the exception it is. -/
theorem C5_counterexample :
    contributors_count_call (Except.error ()) = Except.error () ∧
    contributors_count_call (Except.error ()) ≠ Except.ok 0 :=
  ⟨rfl, fun h => Except.noConfusion h⟩

/-- C5 (amended): when the contributor-count request completes with a
non-success HTTP status the lookup yields the conservative default 0 and
the candidate proceeds through the contributor filter with count 0 (and
is accepted, since 0 < MAX_CONTRIB); a transport-level exception from
the request itself, however, propagates. -/
theorem C5_enrichment_status_default :
    (∀ resp : ContribResponse, resp.status ≠ 200 → contributors_count resp = 0) ∧
    (∀ e : Unit, contributors_count_call (Except.error e) = Except.error e) ∧
    (∀ (st : CState) (repo : Repo), repo.contrib_resp.status ≠ 200 →
      containsKey st.seen repo.full_name = false → repo.age_days ≤ 365 →
      processRepo st repo =
        CState.mk (st.seen ++ [(repo.full_name, mkRecord repo)])
          (st.calls ++ [repo.full_name])) := by
  refine ⟨?_, ?_, ?_⟩
  · intro resp h
    unfold contributors_count
    rw [if_pos h]
  · intro e
    rfl
  · intro st repo h1 h2 h3
    obtain ⟨seen, calls⟩ := st
    have hc : contributors_count repo.contrib_resp = 0 := by
      unfold contributors_count
      rw [if_pos h1]
    unfold processRepo
    simp only [h2, Bool.false_eq_true, if_false]
    rw [if_neg (by omega : ¬repo.age_days > 365)]
    simp only [hc, MAX_CONTRIB]
    norm_num

/-- Witness for C5 at a candidate whose contributor request is answered
with status 403. -/
theorem C5_witness :
    contributors_count repoErr.contrib_resp = 0 ∧
    processRepo ⟨[], []⟩ repoErr =
      CState.mk [(("org/err"), mkRecord repoErr)] [("org/err")] :=
  ⟨C5_enrichment_status_default.1 repoErr.contrib_resp (by decide),
   C5_enrichment_status_default.2.2 ⟨[], []⟩ repoErr (by decide) (by decide) (by decide)⟩

/-- C6 (counterexample): a transport-level exception in the first
query's search request aborts the whole run — the candidates every
other query would have contributed are lost, while the same run with an
HTTP-status failure on that query collects them. -/
theorem C6_counterexample :
    collect_seen envT = Except.error ("RequestException") ∧
    collect_seen (fun t k =>
        if t = "ai" ∧ k = "\"pre-seed\"" then SearchOutcome.httpError
        else SearchOutcome.ok [repoA]) =
      Except.ok (CState.mk [(("org/repo"), mkRecord repoA)] [("org/repo")]) :=
  ⟨rfl, rfl⟩

/-- C6 (amended): a query whose search request fails with an HTTP error
status (`raise_for_status`, including rate-limiting) is skipped: it
leaves the collector state unchanged, and a run in which every such
query is replaced by an empty success collects exactly the same state —
all remaining queries proceed. A transport-level exception, by contrast,
is modelled as `transportError` and aborts. -/
theorem C6_http_failure_skips_query :
    (∀ (env : SearchEnv) (st : CState) (q : String × String),
      env q.1 q.2 = SearchOutcome.httpError → processQuery env st q = Except.ok st) ∧
    (∀ env env' : SearchEnv,
      (∀ t k, env t k = SearchOutcome.httpError → env' t k = SearchOutcome.ok []) →
      (∀ t k, env t k ≠ SearchOutcome.httpError → env' t k = env t k) →
      collect_seen env = collect_seen env') := by
  constructor
  · intro env st q h
    unfold processQuery
    rw [h]
  · intro env env' h1 h2
    unfold collect_seen
    refine foldlM_except_congr (processQuery env) (processQuery env') ?_ queryList ⟨[], []⟩
    intro s q
    unfold processQuery
    cases hq : env q.1 q.2
    case ok items =>
      have he' : env' q.1 q.2 = SearchOutcome.ok items := by
        rw [h2 q.1 q.2 (by simp [hq]), hq]
      rw [he']
    case httpError =>
      have he' := h1 q.1 q.2 hq
      rw [he']
      rfl
    case transportError =>
      have he' : env' q.1 q.2 = SearchOutcome.transportError := by
        rw [h2 q.1 q.2 (by simp [hq]), hq]
      rw [he']

/-- Witness for C6: an HTTP-failing query leaves the state unchanged,
and a run where every query HTTP-fails equals a run where every query
returns no items. -/
theorem C6_witness :
    processQuery (fun _ _ => SearchOutcome.httpError) ⟨[], []⟩ (("ai"), ("MVP")) =
      Except.ok ⟨[], []⟩ ∧
    collect_seen (fun _ _ => SearchOutcome.httpError) =
      collect_seen (fun _ _ => SearchOutcome.ok []) :=
  ⟨C6_http_failure_skips_query.1 _ ⟨[], []⟩ (("ai"), ("MVP")) rfl,
   C6_http_failure_skips_query.2 _ _ (fun _ _ _ => rfl) (fun _ _ h => absurd rfl h)⟩

/-- C7: a candidate that fails the search-response-only age predicate is
rejected with no contributor-count request recorded, and conversely a
new enrichment call is only ever recorded for a candidate that passed
both deduplication and the age filter. -/
theorem C7_age_filter_before_enrichment :
    (∀ (st : CState) (repo : Repo),
      containsKey st.seen repo.full_name = false → repo.age_days > 365 →
      processRepo st repo = st) ∧
    (∀ (st : CState) (repo : Repo), (processRepo st repo).calls ≠ st.calls →
      containsKey st.seen repo.full_name = false ∧ repo.age_days ≤ 365) := by
  constructor
  · intro st repo h1 h2
    unfold processRepo
    simp only [h1, Bool.false_eq_true, if_false]
    rw [if_pos h2]
  · intro st repo h
    by_cases h1 : containsKey st.seen repo.full_name = true
    · exfalso
      apply h
      unfold processRepo
      rw [if_pos h1]
    · have h1f : containsKey st.seen repo.full_name = false := by simpa using h1
      by_cases h2 : repo.age_days > 365
      · exfalso
        apply h
        unfold processRepo
        simp only [h1f, Bool.false_eq_true, if_false]
        rw [if_pos h2]
      · exact ⟨h1f, by omega⟩

/-- Witness for C7 at a 400-day-old candidate (rejected, no call) and at
a fresh accepted candidate (call recorded, so it passed dedup and
age). -/
theorem C7_witness :
    processRepo ⟨[], []⟩ repoOld = ⟨[], []⟩ ∧
    (containsKey (CState.mk [] []).seen repoA.full_name = false ∧ repoA.age_days ≤ 365) :=
  ⟨C7_age_filter_before_enrichment.1 ⟨[], []⟩ repoOld (by decide) (by decide),
   C7_age_filter_before_enrichment.2 ⟨[], []⟩ repoA (by decide)⟩

/-- C8: with all other inputs fixed, the score never increases when the
star count grows nor when the age grows, and the floor at zero preserves
this. -/
theorem C8_score_monotone :
    (∀ (repo : Repo) (a s1 s2 : Int), s1 ≤ s2 →
      calc_score { repo with stargazers_count := s2 } a ≤
        calc_score { repo with stargazers_count := s1 } a) ∧
    (∀ (repo : Repo) (a1 a2 : Int), a1 ≤ a2 →
      calc_score repo a2 ≤ calc_score repo a1) := by
  constructor
  · intro repo a s1 s2 h
    obtain ⟨fn, url, ca, sc, hs, d, ad, cr⟩ := repo
    cases hs <;>
      · simp only [calc_score, MAX_STARS]
        refine max_le_max ?_ le_rfl
        simp only [Bool.false_eq_true, eq_self_iff_true, if_true, if_false]
        omega
  · intro repo a1 a2 h
    cases hsp : repo.has_sponsors <;>
      · simp only [calc_score, MAX_STARS, hsp]
        refine max_le_max ?_ le_rfl
        simp only [Bool.false_eq_true, eq_self_iff_true, if_true, if_false]
        omega

/-- Witness for C8 at the spec's own example: 100 stars scores no more
than 10 stars at age 5, and age 400 scores no more than age 10. -/
theorem C8_witness :
    calc_score { repoA with stargazers_count := 100 } 5 ≤
      calc_score { repoA with stargazers_count := 10 } 5 ∧
    calc_score repoA 400 ≤ calc_score repoA 10 :=
  ⟨C8_score_monotone.1 repoA 5 10 100 (by decide),
   C8_score_monotone.2 repoA 10 400 (by decide)⟩

/-- C9: a 200 response whose `Link` header names a last page `n` makes
the contributor count `n`, computed from that single first-page
response — the lookup consults nothing but page 1, so any two servers
agreeing on page 1 get the same count. -/
theorem C9_link_last_shortcut :
    (∀ (resp : ContribResponse) (n : Nat), resp.status = 200 →
      linkSearch resp.linkHeader.data = some n → contributors_count resp = n) ∧
    (∀ f g : Nat → ContribResponse, f 1 = g 1 →
      contributors_count_run f = contributors_count_run g) := by
  constructor
  · intro resp n h1 h2
    unfold contributors_count
    rw [if_neg (by simp [h1]), h2]
  · intro f g h
    unfold contributors_count_run
    rw [h]

set_option maxRecDepth 8000 in
/-- Witness for C9 at a header whose `rel="last"` entry names page 15:
the count is 15, and a server whose pages beyond 1 differ gives the same
answer. -/
theorem C9_witness :
    contributors_count respL = 15 ∧
    contributors_count_run (fun _ => respL) =
      contributors_count_run (fun n => if n = 1 then respL else respBad) :=
  ⟨C9_link_last_shortcut.1 respL 15 rfl (by decide),
   C9_link_last_shortcut.2 _ _ (by decide)⟩

/-- C10: a null search-response description becomes the empty string in
the stored record, and every record of a successful run's result list is
built by `mkRecord`, whose description field is a total string — the
table handed to the sheet writer can hold no null description. -/
theorem C10_description_never_null :
    (∀ repo : Repo, repo.description = none → (mkRecord repo).description = "") ∧
    (∀ (env : SearchEnv) (l : List Record) (r : Record),
      collect_candidates env = Except.ok l → r ∈ l →
      ∃ repo : Repo, r = mkRecord repo) := by
  constructor
  · intro repo h
    simp [mkRecord, py_or_empty, h]
  · intro env l r h hr
    exact result_records_from_mkRecord env l r h hr

/-- Witness for C10 at the description-less accepted candidate. -/
theorem C10_witness :
    (mkRecord repoA).description = "" ∧ (∃ repo : Repo, mkRecord repoA = mkRecord repo) :=
  ⟨C10_description_never_null.1 repoA rfl,
   C10_description_never_null.2 (fun _ _ => SearchOutcome.ok [repoA]) [mkRecord repoA]
     (mkRecord repoA) rfl (by simp)⟩
